import Mathlib

/-!
# Auth orchestrator of `auth/internal/service/auth.go`

A shallow embedding of the five operations of the `auth` service
(`Register`, `Login`, `PasswordRecovery`, `EmailSendCode`, `EmailVerifyCode`).

The collaborators the service calls (the repository `db.Repository`, the
notifier `utils.Smtp`, `utils.HashPassword`, `utils.ComparePass`,
`utils.NewToken`, `uuid.New`, `math/rand`) live outside the file; they are taken
as parameters (`Deps`), each one a function on an abstract collaborator state
`σ`, so that a collaborator may answer differently from one call to the next.
Every call is appended, with its arguments and its answer, to a trace, which is
what the statements about "which calls were made" talk about.

The `context.Context` argument is only handed through to the collaborators and
is left out.
-/

namespace Service

/-! ## Go values -/

/-- A Go `error` value that is not nil: either an error a collaborator made
(`base`, with its message), or the value built by `fmt.Errorf(ctx + "%w", inner)`,
which keeps `inner` for `errors.Unwrap`. A variable of type `error` is an
`Option GoError`, `none` being nil. -/
inductive GoError where
  | base (msg : String)
  | wrap (ctx : String) (inner : GoError)
deriving DecidableEq, Repr

/-- Method `Error()` of an error value. -/
def GoError.Error : GoError → String
  | .base msg => msg
  | .wrap ctx inner => ctx ++ inner.Error

/-- Function `errors.Unwrap`. -/
def GoError.Unwrap : GoError → Option GoError
  | .base _ => none
  | .wrap _ inner => some inner

/-- Call `fmt.Errorf(ctx + "%w", err)`: `ctx` is the text of the format string
before the verb. With a nil operand the verb prints as `%!w(<nil>)` and nothing
is wrapped. -/
def Errorf (ctx : String) : Option GoError → GoError
  | some err => .wrap ctx err
  | none => .base (ctx ++ "%!w(<nil>)")

/-- Text written by `fmt.Printf("smtp error: %v\n", err)`. -/
def smtpErrorLine : Option GoError → String
  | some err => "smtp error: " ++ err.Error ++ "\n"
  | none => "smtp error: <nil>\n"

/-- Function `strconv.Itoa`: the decimal text of an integer. -/
def Itoa (i : Int) : String := toString i

/-- The two token kinds `utils.REFRESH` and `utils.ACCESS`. -/
inductive TokenKind where
  | REFRESH
  | ACCESS
deriving DecidableEq, Repr

/-- Modelled from the spec: `models.RegReq` is declared outside the file; these
are the fields `Register` reads or writes. -/
structure RegReq where
  Email : String
  Password : String
  UUID : String
  Refresh : String
deriving DecidableEq, Repr

/-- Modelled from the spec: `models.RegRes`, with the three fields `Register`
fills in. The zero value `models.RegRes{}` has them all empty. -/
structure RegRes where
  UUID : String
  RefreshToken : String
  AccessToken : String
deriving DecidableEq, Repr

/-- The zero value `models.RegRes{}`. -/
def RegRes.zero : RegRes := { UUID := "", RefreshToken := "", AccessToken := "" }

/-- Modelled from the spec: `models.LogReq`, with the fields `Login` reads or
writes. -/
structure LogReq where
  Email : String
  Password : String
  Refresh : String
deriving DecidableEq, Repr

/-- Modelled from the spec: `models.Credentials`, with the fields
`PasswordRecovery` reads or writes. -/
structure Credentials where
  Email : String
  Password : String
deriving DecidableEq, Repr

/-- Modelled from the spec: the value `repo.GetHashAndID` returns, of which
`Login` reads `Password` (the stored hash) and `UUID`. -/
structure HashAndID where
  Password : String
  UUID : String
deriving DecidableEq, Repr

/-! ## Collaborators and the trace of calls -/

/-- One call to a collaborator, with its arguments and its answer. `Printf` is
the line the detached dispatch of `Register` writes to standard output. -/
inductive Call where
  | logDebug (msg : String)
  | HashPassword (password : String) (res : Except GoError String)
  | ComparePass (hash password : String) (res : Option GoError)
  | NewToken (id : String) (kind : TokenKind) (res : Except GoError String)
  | uuidNew (res : String)
  | randIntn (n : Nat) (res : Nat)
  | repoRegister (req : RegReq) (res : Option GoError)
  | repoGetHashAndID (email : String) (res : Except GoError HashAndID)
  | repoLogin (req : LogReq) (res : Option GoError)
  | repoPasswordRecovery (cr : Credentials) (res : Option GoError)
  | repoEmailAddCode (code email : String) (res : Option GoError)
  | repoEmailVerifyCode (code email t : String) (res : Except GoError String)
  | repoUpdateRToken (id token : String) (res : Option GoError)
  | smtpSendCode (code email : String) (res : Option GoError)
  | Printf (out : String)

/-- The collaborators of the service, over a collaborator state `σ`. A call
returning `error` answers `none` for nil; a call returning a value and an
`error` answers `Except`. `randSource` is the next raw value of the random
source, from which `rand.Intn n` takes a value below `n`. -/
structure Deps (σ : Type) where
  HashPassword : String → σ → Except GoError String × σ
  ComparePass : String → String → σ → Option GoError × σ
  NewToken : String → TokenKind → σ → Except GoError String × σ
  uuidNew : σ → String × σ
  randSource : σ → Nat × σ
  repoRegister : RegReq → σ → Option GoError × σ
  repoGetHashAndID : String → σ → Except GoError HashAndID × σ
  repoLogin : LogReq → σ → Option GoError × σ
  repoPasswordRecovery : Credentials → σ → Option GoError × σ
  repoEmailAddCode : String → String → σ → Option GoError × σ
  repoEmailVerifyCode : String → String → String → σ → Except GoError String × σ
  repoUpdateRToken : String → String → σ → Option GoError × σ
  smtpSendCode : String → String → σ → Option GoError × σ

/-- The collaborator state together with the calls made so far, oldest first. -/
structure World (σ : Type) where
  st : σ
  trace : List Call

variable {σ : Type}

/-- The world before a call to the service: collaborator state `s`, no call yet. -/
@[simp]
def World.init (s : σ) : World σ :=
  { st := s, trace := [] }

/-- Append a call to the trace and move to the collaborator state it left. -/
@[simp]
def World.record (w : World σ) (c : Call) (s : σ) : World σ :=
  { st := s, trace := w.trace ++ [c] }

/-- Call `log.GetLogger(ctx).Debug(msg)`: observed only. -/
@[simp]
def logDebug (msg : String) (w : World σ) : World σ :=
  w.record (.logDebug msg) w.st

/-- Call `utils.HashPassword(password)`. -/
@[simp]
def HashPassword (d : Deps σ) (password : String) (w : World σ) :
    Except GoError String × World σ :=
  let r := d.HashPassword password w.st
  (r.1, w.record (.HashPassword password r.1) r.2)

/-- Call `utils.ComparePass(hash, password)`. -/
@[simp]
def ComparePass (d : Deps σ) (hash password : String) (w : World σ) :
    Option GoError × World σ :=
  let r := d.ComparePass hash password w.st
  (r.1, w.record (.ComparePass hash password r.1) r.2)

/-- Call `utils.NewToken(id, kind)`. -/
@[simp]
def NewToken (d : Deps σ) (id : String) (kind : TokenKind) (w : World σ) :
    Except GoError String × World σ :=
  let r := d.NewToken id kind w.st
  (r.1, w.record (.NewToken id kind r.1) r.2)

/-- Call `uuid.New().String()`. -/
@[simp]
def uuidNew (d : Deps σ) (w : World σ) : String × World σ :=
  let r := d.uuidNew w.st
  (r.1, w.record (.uuidNew r.1) r.2)

/-- Call `rand.Intn(n)` for a positive `n`: a value in `[0, n)`, any of them
being possible, taken from the random source. -/
@[simp]
def Intn (d : Deps σ) (n : Nat) (w : World σ) : Nat × World σ :=
  let r := d.randSource w.st
  (r.1 % n, w.record (.randIntn n (r.1 % n)) r.2)

/-- Call `a.repo.Register(ctx, req)`. -/
@[simp]
def repoRegister (d : Deps σ) (req : RegReq) (w : World σ) : Option GoError × World σ :=
  let r := d.repoRegister req w.st
  (r.1, w.record (.repoRegister req r.1) r.2)

/-- Call `a.repo.GetHashAndID(ctx, email)`. -/
@[simp]
def repoGetHashAndID (d : Deps σ) (email : String) (w : World σ) :
    Except GoError HashAndID × World σ :=
  let r := d.repoGetHashAndID email w.st
  (r.1, w.record (.repoGetHashAndID email r.1) r.2)

/-- Call `a.repo.Login(ctx, req)`. -/
@[simp]
def repoLogin (d : Deps σ) (req : LogReq) (w : World σ) : Option GoError × World σ :=
  let r := d.repoLogin req w.st
  (r.1, w.record (.repoLogin req r.1) r.2)

/-- Call `a.repo.PasswordRecovery(ctx, cr)`. -/
@[simp]
def repoPasswordRecovery (d : Deps σ) (cr : Credentials) (w : World σ) :
    Option GoError × World σ :=
  let r := d.repoPasswordRecovery cr w.st
  (r.1, w.record (.repoPasswordRecovery cr r.1) r.2)

/-- Call `a.repo.EmailAddCode(ctx, code, email)`. -/
@[simp]
def repoEmailAddCode (d : Deps σ) (code email : String) (w : World σ) :
    Option GoError × World σ :=
  let r := d.repoEmailAddCode code email w.st
  (r.1, w.record (.repoEmailAddCode code email r.1) r.2)

/-- Call `a.repo.EmailVerifyCode(ctx, code, email, t)`. -/
@[simp]
def repoEmailVerifyCode (d : Deps σ) (code email t : String) (w : World σ) :
    Except GoError String × World σ :=
  let r := d.repoEmailVerifyCode code email t w.st
  (r.1, w.record (.repoEmailVerifyCode code email t r.1) r.2)

/-- Call `a.repo.UpdateRToken(ctx, id, token)`. -/
@[simp]
def repoUpdateRToken (d : Deps σ) (id token : String) (w : World σ) :
    Option GoError × World σ :=
  let r := d.repoUpdateRToken id token w.st
  (r.1, w.record (.repoUpdateRToken id token r.1) r.2)

/-- Call `a.smtp.SendCode(code, email)`. -/
@[simp]
def smtpSendCode (d : Deps σ) (code email : String) (w : World σ) :
    Option GoError × World σ :=
  let r := d.smtpSendCode code email w.st
  (r.1, w.record (.smtpSendCode code email r.1) r.2)

/-! ## The sequential operations -/

/-- Method `(*auth).Login`: the two returned strings and the returned error. -/
def Login (d : Deps σ) (req : LogReq) (w : World σ) :
    (String × String × Option GoError) × World σ :=
  let w := logDebug "uc layer success ✔" w
  -- get password
  match repoGetHashAndID d req.Email w with
  | (.error err, w) => (("", " ", some (Errorf "repo error: " (some err))), w)
  | (.ok res, w) =>
    -- compare passwords
    match ComparePass d res.Password req.Password w with
    | (some err, w) => (("", " ", some (Errorf "error: " (some err))), w)
    | (none, w) =>
      -- generating token
      match NewToken d res.UUID .REFRESH w with
      | (.error err, w) => ((" ", " ", some err), w)
      | (.ok rToken, w) =>
        match NewToken d res.UUID .ACCESS w with
        | (.error err, w) => ((" ", " ", some err), w)
        | (.ok aToken, w) =>
          let req := { req with Refresh := rToken }
          -- login
          match repoLogin d req w with
          | (some err, w) => (("", " ", some (Errorf "repo error: " (some err))), w)
          | (none, w) => ((rToken, aToken, none), w)

/-- Method `(*auth).PasswordRecovery`: the returned error. -/
def PasswordRecovery (d : Deps σ) (cr : Credentials) (w : World σ) :
    Option GoError × World σ :=
  let w := logDebug "uc layer success ✔" w
  -- hashing password
  match HashPassword d cr.Password w with
  | (.error err, w) => (some (Errorf "repo error: " (some err)), w)
  | (.ok hashed, w) =>
    let cr := { cr with Password := hashed }
    -- calling repo method
    match repoPasswordRecovery d cr w with
    | (some err, w) => (some (Errorf "repo error: " (some err)), w)
    | (none, w) => (none, w)

/-- Method `(*auth).EmailSendCode`: the returned error. -/
def EmailSendCode (d : Deps σ) (email : String) (w : World σ) :
    Option GoError × World σ :=
  let w := logDebug "uc layer success ✔" w
  -- code
  let r := Intn d 9009 w
  let code := Itoa (r.1 + 1000)
  -- send code
  match smtpSendCode d code email r.2 with
  | (some err, w) => (some (Errorf "smtp error: " (some err)), w)
  | (none, w) =>
    -- calling repo method
    match repoEmailAddCode d code email w with
    | (some err, w) => (some (Errorf "repo errpr: " (some err)), w)
    | (none, w) => (none, w)

/-- The two threads of `Register` after the `go` statement. -/
inductive Thread where
  | main
  | dispatch
deriving DecidableEq, Repr

/-- Where the body of `Register` stands after the `go` statement. -/
inductive MainPc where
  /-- About to call `a.repo.EmailAddCode(ctx, code, req.Email)`. -/
  | callAddCode
  /-- The call answered `tmp`; about to assign it to `err`. -/
  | storeErr (tmp : Option GoError)
  /-- About to read `err` for the test `err != nil`. -/
  | testErr
  /-- The test held; about to read `err` as the operand of `fmt.Errorf`. -/
  | wrapErr
  /-- The function has returned. -/
  | returned (res : RegRes) (err : Option GoError)
deriving DecidableEq, Repr

/-- Where the goroutine of `Register` stands. -/
inductive DispatchPc where
  /-- About to call `a.smtp.SendCode(code, req.Email)`. -/
  | callSendCode
  /-- The call answered `tmp`; about to assign it to `err`. -/
  | storeErr (tmp : Option GoError)
  /-- About to read `err` for the test `err != nil`. -/
  | testErr
  /-- The test held; about to read `err` as the operand of `fmt.Printf`. -/
  | printErr
  /-- The goroutine has ended. -/
  | finished
deriving DecidableEq, Repr

/-- The state shared by the two threads: the collaborators and the trace, the
variable `err`, and where each thread stands. -/
structure RegState (σ : Type) where
  world : World σ
  err : Option GoError
  mainPc : MainPc
  dispatchPc : DispatchPc

/-- One step of the body of `Register` after the `go` statement; `ok` is the
result returned on success. -/
def stepMain (d : Deps σ) (code email : String) (ok : RegRes) (s : RegState σ) :
    RegState σ :=
  match s.mainPc with
  | .callAddCode =>
    let r := repoEmailAddCode d code email s.world
    { s with world := r.2, mainPc := .storeErr r.1 }
  | .storeErr tmp => { s with err := tmp, mainPc := .testErr }
  | .testErr =>
    match s.err with
    | some _ => { s with mainPc := .wrapErr }
    | none => { s with mainPc := .returned ok none }
  | .wrapErr =>
    { s with mainPc := .returned RegRes.zero (some (Errorf "repo error: " s.err)) }
  | .returned _ _ => s

/-- One step of the goroutine of `Register`. -/
def stepDispatch (d : Deps σ) (code email : String) (s : RegState σ) : RegState σ :=
  match s.dispatchPc with
  | .callSendCode =>
    let r := smtpSendCode d code email s.world
    { s with world := r.2, dispatchPc := .storeErr r.1 }
  | .storeErr tmp => { s with err := tmp, dispatchPc := .testErr }
  | .testErr =>
    match s.err with
    | some _ => { s with dispatchPc := .printErr }
    | none => { s with dispatchPc := .finished }
  | .printErr =>
    { s with world := s.world.record (.Printf (smtpErrorLine s.err)) s.world.st,
             dispatchPc := .finished }
  | .finished => s

/-- One step of the thread the schedule names (nothing, when it has ended). -/
def stepThread (d : Deps σ) (code email : String) (ok : RegRes) (s : RegState σ) :
    Thread → RegState σ
  | .main => stepMain d code email ok s
  | .dispatch => stepDispatch d code email s

/-- Run the two threads as the schedule says. -/
def runSchedule (d : Deps σ) (code email : String) (ok : RegRes) (sched : List Thread)
    (s : RegState σ) : RegState σ :=
  sched.foldl (stepThread d code email ok) s

/-- Let the body of `Register` run until it returns: four steps at most. -/
def finishMain (d : Deps σ) (code email : String) (ok : RegRes) (s : RegState σ) :
    RegState σ :=
  stepMain d code email ok (stepMain d code email ok
    (stepMain d code email ok (stepMain d code email ok s)))

/-- Let the goroutine run until it ends: four steps at most. -/
def finishDispatch (d : Deps σ) (code email : String) (s : RegState σ) : RegState σ :=
  stepDispatch d code email (stepDispatch d code email
    (stepDispatch d code email (stepDispatch d code email s)))

/-- What `Register` returned, read off the final state. -/
def RegState.result (s : RegState σ) : RegRes × Option GoError :=
  match s.mainPc with
  | .returned res err => (res, err)
  | _ => (RegRes.zero, none)

/-- The part of `Register` from the `go` statement on: the threads move as the
schedule says; when the schedule is used up the body runs to its return and the
goroutine, detached, to its end. `err` is nil at the `go` statement, the
repository having just answered nil. -/
def registerTail (d : Deps σ) (code email : String) (ok : RegRes) (sched : List Thread)
    (w : World σ) : (RegRes × Option GoError) × World σ :=
  let s0 : RegState σ :=
    { world := w, err := none, mainPc := .callAddCode, dispatchPc := .callSendCode }
  let s := finishDispatch d code email
    (finishMain d code email ok (runSchedule d code email ok sched s0))
  (s.result, s.world)

/-- Method `(*auth).Register`: the returned result and error. `sched` is the
interleaving of the function body with its goroutine. -/
def Register (d : Deps σ) (req : RegReq) (sched : List Thread) (w : World σ) :
    (RegRes × Option GoError) × World σ :=
  let w := logDebug "uc layer success ✔" w
  -- hashing password
  match HashPassword d req.Password w with
  | (.error err, w) => ((RegRes.zero, some err), w)
  | (.ok hashed, w) =>
    let req := { req with Password := hashed }
    -- generating id
    let u := uuidNew d w
    let req := { req with UUID := u.1 }
    -- generating tokens
    match NewToken d req.UUID .REFRESH u.2 with
    | (.error err, w) => ((RegRes.zero, some err), w)
    | (.ok rToken, w) =>
      match NewToken d req.UUID .ACCESS w with
      | (.error err, w) => ((RegRes.zero, some err), w)
      | (.ok aToken, w) =>
        let req := { req with Refresh := rToken }
        -- calling repo method
        match repoRegister d req w with
        | (some err, w) => ((RegRes.zero, some (Errorf "repo error: " (some err))), w)
        | (none, w) =>
          let r := Intn d 9001 w
          let code := Itoa (r.1 + 1000)
          -- sending code, and calling repo method
          registerTail d code req.Email
            { UUID := req.UUID, RefreshToken := rToken, AccessToken := aToken } sched r.2


/-! ## Sample collaborators

Concrete collaborators on which the statements are instantiated. The
collaborator state is a counter of the calls answered. -/

/-- Collaborators that all succeed. The random source answers `raw`. -/
def sampleDeps (raw : Nat) : Deps Nat where
  HashPassword := fun p s => (.ok ("hash:" ++ p), s + 1)
  ComparePass := fun _ _ s => (none, s + 1)
  NewToken := fun id k s =>
    (.ok ((match k with | .REFRESH => "R-" | .ACCESS => "A-") ++ id), s + 1)
  uuidNew := fun s => ("u1", s + 1)
  randSource := fun s => (raw, s + 1)
  repoRegister := fun _ s => (none, s + 1)
  repoGetHashAndID := fun _ s => (.ok { Password := "hash:pw1", UUID := "u1" }, s + 1)
  repoLogin := fun _ s => (none, s + 1)
  repoPasswordRecovery := fun _ s => (none, s + 1)
  repoEmailAddCode := fun _ _ s => (none, s + 1)
  repoEmailVerifyCode := fun _ _ _ s => (.ok "u1", s + 1)
  repoUpdateRToken := fun _ _ s => (none, s + 1)
  smtpSendCode := fun _ _ s => (none, s + 1)

/-- A registration request. -/
def sampleRegReq : RegReq :=
  { Email := "a@x.com", Password := "pw1", UUID := "", Refresh := "" }

/-- A login request. -/
def sampleLogReq : LogReq :=
  { Email := "a@x.com", Password := "pw1", Refresh := "" }

/-- The repository does not know the email. -/
def unknownEmailDeps : Deps Nat :=
  { sampleDeps 0 with repoGetHashAndID := fun _ s => (.error (.base "invalid credentials"), s + 1) }

/-- The password does not match the stored hash. -/
def wrongPasswordDeps : Deps Nat :=
  { sampleDeps 0 with ComparePass := fun _ _ s => (some (.base "invalid credentials"), s + 1) }

/-- The notifier fails. -/
def smtpDownDeps (raw : Nat) : Deps Nat :=
  { sampleDeps raw with smtpSendCode := fun _ _ s => (some (.base "smtp down"), s + 1) }

/-- The repository fails to record a code. -/
def addCodeFailsDeps (raw : Nat) : Deps Nat :=
  { sampleDeps raw with repoEmailAddCode := fun _ _ s => (some (.base "db down"), s + 1) }

/-- The repository refuses the registration. -/
def duplicateEmailDeps : Deps Nat :=
  { sampleDeps 0 with repoRegister := fun _ s => (some (.base "duplicate email"), s + 1) }

/-- Hashing fails. -/
def hashFailsDeps : Deps Nat :=
  { sampleDeps 0 with HashPassword := fun _ s => (.error (.base "hash failed"), s + 1) }

/-! ## Reading a trace -/

/-- Whether a call is a call to the repository. -/
def Call.isRepo : Call → Bool
  | .repoRegister _ _ => true
  | .repoGetHashAndID _ _ => true
  | .repoLogin _ _ => true
  | .repoPasswordRecovery _ _ => true
  | .repoEmailAddCode _ _ _ => true
  | .repoEmailVerifyCode _ _ _ _ => true
  | .repoUpdateRToken _ _ _ => true
  | _ => false

/-- The password field a call hands to the repository, when it has one. -/
def Call.repoPassword : Call → Option String
  | .repoRegister req _ => some req.Password
  | .repoLogin req _ => some req.Password
  | .repoPasswordRecovery cr _ => some cr.Password
  | _ => none

/-- The email a call hands to the repository, when it has one. -/
def Call.repoEmail : Call → Option String
  | .repoRegister req _ => some req.Email
  | .repoGetHashAndID email _ => some email
  | .repoLogin req _ => some req.Email
  | .repoPasswordRecovery cr _ => some cr.Email
  | .repoEmailAddCode _ email _ => some email
  | .repoEmailVerifyCode _ email _ _ => some email
  | _ => none

/-- The code and email of a call to `a.smtp.SendCode`. -/
def Call.sentCode : Call → Option (String × String)
  | .smtpSendCode code email _ => some (code, email)
  | _ => none

/-- The code and email of a call to `a.repo.EmailAddCode`. -/
def Call.addedCode : Call → Option (String × String)
  | .repoEmailAddCode code email _ => some (code, email)
  | _ => none

/-- The value a call to `rand.Intn` answered. -/
def Call.drawn : Call → Option Nat
  | .randIntn _ r => some r
  | _ => none

/-- A call the two threads of `Register` make after the `go` statement, for the
code and email they were started with. -/
def Call.isTail (code email : String) : Call → Prop
  | .repoEmailAddCode c e _ => c = code ∧ e = email
  | .smtpSendCode c e _ => c = code ∧ e = email
  | .Printf _ => True
  | _ => False

/-- The trace `t'` is `t` followed only by calls of the two threads of
`Register`, for the given code and email. -/
def TailExtends (code email : String) (t t' : List Call) : Prop :=
  ∃ extra : List Call, t' = t ++ extra ∧ ∀ c ∈ extra, c.isTail code email

/-- The repository fails to store the new password hash. -/
def recoveryFailsDeps : Deps Nat :=
  { sampleDeps 0 with repoPasswordRecovery := fun _ s => (some (.base "db down"), s + 1) }

/-! # Theorems -/

/-! ## Login -/

/-- C2, as stated, fails: even when the repository's lookup and the password
comparison fail with one and the same error, what `Login` returns for an unknown
email differs from what it returns for a wrong password. -/
theorem Login_failures_distinguishable :
    ¬ (∀ (d₁ d₂ : Deps Nat) (req : LogReq) (s : Nat) (e : GoError) (res : HashAndID),
        (d₁.repoGetHashAndID req.Email s).1 = .error e →
        (d₂.repoGetHashAndID req.Email s).1 = .ok res →
        (d₂.ComparePass res.Password req.Password (d₂.repoGetHashAndID req.Email s).2).1
          = some e →
        (Login d₁ req (World.init s)).1 = (Login d₂ req (World.init s)).1) := by
  intro h
  have h' := h unknownEmailDeps wrongPasswordDeps sampleLogReq 0
    (.base "invalid credentials") { Password := "hash:pw1", UUID := "u1" } rfl rfl rfl
  revert h'
  decide

/-- C2, amended: when the lookup of the email fails with `e₁`, `Login` returns
`("", " ")` and `e₁` wrapped under the context `"repo error: "`; when the lookup
succeeds and the comparison fails with `e₂`, `Login` returns the same two strings
and `e₂` wrapped under the context `"error: "`. -/
theorem Login_failure_shapes (d₁ d₂ : Deps σ) (req : LogReq) (s₁ s₂ : σ)
    (e₁ e₂ : GoError) (res : HashAndID)
    (h₁ : (d₁.repoGetHashAndID req.Email s₁).1 = .error e₁)
    (h₂ : (d₂.repoGetHashAndID req.Email s₂).1 = .ok res)
    (h₃ : (d₂.ComparePass res.Password req.Password
            (d₂.repoGetHashAndID req.Email s₂).2).1 = some e₂) :
    (Login d₁ req (World.init s₁)).1 = ("", " ", some (.wrap "repo error: " e₁)) ∧
    (Login d₂ req (World.init s₂)).1 = ("", " ", some (.wrap "error: " e₂)) := by
  constructor
  · rcases h : d₁.repoGetHashAndID req.Email s₁ with ⟨r, s'⟩
    rw [h] at h₁
    simp only at h₁
    subst h₁
    simp [Login, h, Errorf]
  · rcases h : d₂.repoGetHashAndID req.Email s₂ with ⟨r, s'⟩
    rw [h] at h₂ h₃
    simp only at h₂ h₃
    subst h₂
    rcases h' : d₂.ComparePass res.Password req.Password s' with ⟨c, s3⟩
    rw [h'] at h₃
    simp only at h₃
    subst h₃
    simp [Login, h, h', Errorf]

/-- Witness of the amended C2 on the sample collaborators. -/
theorem Login_failure_shapes_witness :
    (Login unknownEmailDeps sampleLogReq (World.init 0)).1
      = ("", " ", some (.wrap "repo error: " (.base "invalid credentials"))) ∧
    (Login wrongPasswordDeps sampleLogReq (World.init 0)).1
      = ("", " ", some (.wrap "error: " (.base "invalid credentials"))) :=
  Login_failure_shapes unknownEmailDeps wrongPasswordDeps sampleLogReq 0 0
    (.base "invalid credentials") (.base "invalid credentials")
    { Password := "hash:pw1", UUID := "u1" } rfl rfl rfl

/-! ## EmailVerifyCode -/

/-- C8: if `SendCode` fails with `e` inside `EmailSendCode`, the operation returns
`e` wrapped under `"smtp error: "` and made no call to `repo.EmailAddCode`; if
`SendCode` succeeds, the calls made are the draw, the `SendCode` and exactly one
`repo.EmailAddCode`, and the operation fails if and only if that call fails. -/
theorem EmailSendCode_notifier_gate (d : Deps σ) (email : String) (s : σ) :
    (∀ (c m : String) (e : GoError),
      Call.smtpSendCode c m (some e) ∈ (EmailSendCode d email (World.init s)).2.trace →
      (EmailSendCode d email (World.init s)).1 = some (.wrap "smtp error: " e) ∧
      (GoError.wrap "smtp error: " e).Unwrap = some e ∧
      ∀ x ∈ (EmailSendCode d email (World.init s)).2.trace, x.addedCode = none) ∧
    (∀ (c m : String),
      Call.smtpSendCode c m none ∈ (EmailSendCode d email (World.init s)).2.trace →
      ∃ (r : Nat) (res : Option GoError),
        (EmailSendCode d email (World.init s)).2.trace =
          [ .logDebug "uc layer success ✔",
            .randIntn 9009 r,
            .smtpSendCode (Itoa (r + 1000)) email none,
            .repoEmailAddCode (Itoa (r + 1000)) email res ] ∧
        ((EmailSendCode d email (World.init s)).1 ≠ none ↔ res ≠ none)) := by
  rcases h0 : d.randSource s with ⟨raw, s0⟩
  rcases h1 : d.smtpSendCode (Itoa ((raw : Int) % 9009 + 1000)) email s0 with ⟨_ | e', s1⟩
  · rcases h2 : d.repoEmailAddCode (Itoa ((raw : Int) % 9009 + 1000)) email s1 with ⟨_ | e3, s2⟩
    · constructor
      · intro c m e h
        simp [EmailSendCode, h0, h1, h2] at h
      · intro c m _
        refine ⟨raw % 9009, none, ?_⟩
        simp [EmailSendCode, h0, h1, h2]
    · constructor
      · intro c m e h
        simp [EmailSendCode, h0, h1, h2] at h
      · intro c m _
        refine ⟨raw % 9009, some e3, ?_⟩
        simp [EmailSendCode, h0, h1, h2]
  · constructor
    · intro c m e h
      simp [EmailSendCode, h0, h1] at h
      simp [EmailSendCode, h0, h1, Errorf, GoError.Unwrap, Call.addedCode, h.2.2]
    · intro c m h
      simp [EmailSendCode, h0, h1] at h

/-- Witness of C8: a failing notifier and a working one. -/
theorem EmailSendCode_notifier_gate_witness :
    ((EmailSendCode (smtpDownDeps 234) "a@x.com" (World.init 0)).1
        = some (.wrap "smtp error: " (.base "smtp down")) ∧
      (GoError.wrap "smtp error: " (.base "smtp down")).Unwrap = some (.base "smtp down") ∧
      ∀ x ∈ (EmailSendCode (smtpDownDeps 234) "a@x.com" (World.init 0)).2.trace,
        x.addedCode = none) ∧
    (∃ (r : Nat) (res : Option GoError),
        (EmailSendCode (addCodeFailsDeps 234) "a@x.com" (World.init 0)).2.trace =
          [ .logDebug "uc layer success ✔",
            .randIntn 9009 r,
            .smtpSendCode (Itoa (r + 1000)) "a@x.com" none,
            .repoEmailAddCode (Itoa (r + 1000)) "a@x.com" res ] ∧
        ((EmailSendCode (addCodeFailsDeps 234) "a@x.com" (World.init 0)).1 ≠ none
          ↔ res ≠ none)) :=
  ⟨(EmailSendCode_notifier_gate (smtpDownDeps 234) "a@x.com" 0).1 "1234" "a@x.com"
      (.base "smtp down") (by simp [EmailSendCode, smtpDownDeps, sampleDeps]; decide),
   (EmailSendCode_notifier_gate (addCodeFailsDeps 234) "a@x.com" 0).2 "1234" "a@x.com"
      (by simp [EmailSendCode, addCodeFailsDeps, sampleDeps]; decide)⟩


/-! ## The two threads of Register -/

theorem TailExtends.refl (code email : String) (t : List Call) :
    TailExtends code email t t :=
  ⟨[], by simp⟩

theorem TailExtends.trans {code email : String} {t₁ t₂ t₃ : List Call}
    (h₁ : TailExtends code email t₁ t₂) (h₂ : TailExtends code email t₂ t₃) :
    TailExtends code email t₁ t₃ := by
  obtain ⟨x, rfl, hx⟩ := h₁
  obtain ⟨y, rfl, hy⟩ := h₂
  refine ⟨x ++ y, by simp, ?_⟩
  intro c hc
  rcases List.mem_append.mp hc with h | h
  · exact hx c h
  · exact hy c h

theorem TailExtends.single {code email : String} (t : List Call) (c : Call)
    (h : c.isTail code email) : TailExtends code email t (t ++ [c]) :=
  ⟨[c], rfl, by simpa using h⟩

/-- A step of the body of `Register` adds at most a call to `repo.EmailAddCode`
for the code and email. -/
theorem stepMain_trace (d : Deps σ) (code email : String) (ok : RegRes) (s : RegState σ) :
    TailExtends code email s.world.trace (stepMain d code email ok s).world.trace := by
  rcases s with ⟨w, err, mpc, dpc⟩
  cases mpc with
  | callAddCode =>
    exact TailExtends.single _ _ (by simp [Call.isTail])
  | storeErr tmp => exact TailExtends.refl _ _ _
  | testErr =>
    cases err <;> exact TailExtends.refl _ _ _
  | wrapErr => exact TailExtends.refl _ _ _
  | returned r e => exact TailExtends.refl _ _ _

/-- A step of the goroutine of `Register` adds at most a call to `SendCode` for
the code and email, or a printed line. -/
theorem stepDispatch_trace (d : Deps σ) (code email : String) (s : RegState σ) :
    TailExtends code email s.world.trace (stepDispatch d code email s).world.trace := by
  rcases s with ⟨w, err, mpc, dpc⟩
  cases dpc with
  | callSendCode =>
    exact TailExtends.single _ _ (by simp [Call.isTail])
  | storeErr tmp => exact TailExtends.refl _ _ _
  | testErr =>
    cases err <;> exact TailExtends.refl _ _ _
  | printErr =>
    exact TailExtends.single _ _ (by simp [Call.isTail])
  | finished => exact TailExtends.refl _ _ _

theorem stepThread_trace (d : Deps σ) (code email : String) (ok : RegRes) (s : RegState σ)
    (t : Thread) :
    TailExtends code email s.world.trace (stepThread d code email ok s t).world.trace := by
  cases t
  · exact stepMain_trace d code email ok s
  · exact stepDispatch_trace d code email s

theorem runSchedule_trace (d : Deps σ) (code email : String) (ok : RegRes)
    (sched : List Thread) (s : RegState σ) :
    TailExtends code email s.world.trace (runSchedule d code email ok sched s).world.trace := by
  induction sched generalizing s with
  | nil => exact TailExtends.refl _ _ _
  | cons t rest ih =>
    exact (stepThread_trace d code email ok s t).trans (ih (stepThread d code email ok s t))

theorem finishMain_trace (d : Deps σ) (code email : String) (ok : RegRes) (s : RegState σ) :
    TailExtends code email s.world.trace (finishMain d code email ok s).world.trace :=
  (((stepMain_trace d code email ok s).trans (stepMain_trace d code email ok _)).trans
    (stepMain_trace d code email ok _)).trans (stepMain_trace d code email ok _)

theorem finishDispatch_trace (d : Deps σ) (code email : String) (s : RegState σ) :
    TailExtends code email s.world.trace (finishDispatch d code email s).world.trace :=
  (((stepDispatch_trace d code email s).trans (stepDispatch_trace d code email _)).trans
    (stepDispatch_trace d code email _)).trans (stepDispatch_trace d code email _)

/-- Whatever the schedule, the part of `Register` after the `go` statement adds
to the trace only calls to `repo.EmailAddCode` and `SendCode` for the code and
email it was started with, and printed lines. -/
theorem registerTail_trace (d : Deps σ) (code email : String) (ok : RegRes)
    (sched : List Thread) (w : World σ) :
    TailExtends code email w.trace (registerTail d code email ok sched w).2.trace := by
  unfold registerTail
  exact ((runSchedule_trace d code email ok sched _).trans
    (finishMain_trace d code email ok _)).trans (finishDispatch_trace d code email _)

/-! ## Register -/

/-- The five ways through `Register`: hashing fails; issuing the refresh token
fails; issuing the access token fails; `repo.Register` fails; or all of them
succeed, a code is drawn and the two threads run. -/
theorem Register_cases (d : Deps σ) (req : RegReq) (sched : List Thread) (s : σ) :
    (∃ e : GoError, (d.HashPassword req.Password s).1 = .error e ∧
      (Register d req sched (World.init s)).1 = (RegRes.zero, some e) ∧
      (Register d req sched (World.init s)).2.trace =
        [ .logDebug "uc layer success ✔", .HashPassword req.Password (.error e) ]) ∨
    (∃ hashed id : String, (d.HashPassword req.Password s).1 = .ok hashed ∧
      ((∃ e : GoError,
        (Register d req sched (World.init s)).1 = (RegRes.zero, some e) ∧
        (Register d req sched (World.init s)).2.trace =
          [ .logDebug "uc layer success ✔", .HashPassword req.Password (.ok hashed),
            .uuidNew id, .NewToken id .REFRESH (.error e) ]) ∨
       (∃ (r : String) (e : GoError),
        (Register d req sched (World.init s)).1 = (RegRes.zero, some e) ∧
        (Register d req sched (World.init s)).2.trace =
          [ .logDebug "uc layer success ✔", .HashPassword req.Password (.ok hashed),
            .uuidNew id, .NewToken id .REFRESH (.ok r), .NewToken id .ACCESS (.error e) ]) ∨
       (∃ (r a : String) (e : GoError),
        (Register d req sched (World.init s)).1
          = (RegRes.zero, some (.wrap "repo error: " e)) ∧
        (Register d req sched (World.init s)).2.trace =
          [ .logDebug "uc layer success ✔", .HashPassword req.Password (.ok hashed),
            .uuidNew id, .NewToken id .REFRESH (.ok r), .NewToken id .ACCESS (.ok a),
            .repoRegister { Email := req.Email, Password := hashed, UUID := id, Refresh := r }
              (some e) ]) ∨
       (∃ (r a : String) (k : Nat) (extra : List Call),
        (Register d req sched (World.init s)).2.trace =
          [ .logDebug "uc layer success ✔", .HashPassword req.Password (.ok hashed),
            .uuidNew id, .NewToken id .REFRESH (.ok r), .NewToken id .ACCESS (.ok a),
            .repoRegister { Email := req.Email, Password := hashed, UUID := id, Refresh := r }
              none,
            .randIntn 9001 k ] ++ extra ∧
        ∀ c ∈ extra, c.isTail (Itoa (k + 1000)) req.Email))) := by
  rcases h1 : d.HashPassword req.Password s with ⟨e | hashed, s1⟩
  · left
    exact ⟨e, rfl, by simp [Register, h1], by simp [Register, h1]⟩
  right
  rcases h2 : d.uuidNew s1 with ⟨id, s2⟩
  refine ⟨hashed, id, rfl, ?_⟩
  rcases h3 : d.NewToken id .REFRESH s2 with ⟨e | r, s3⟩
  · left
    exact ⟨e, by simp [Register, h1, h2, h3], by simp [Register, h1, h2, h3]⟩
  right
  rcases h4 : d.NewToken id .ACCESS s3 with ⟨e | a, s4⟩
  · left
    exact ⟨r, e, by simp [Register, h1, h2, h3, h4], by simp [Register, h1, h2, h3, h4]⟩
  right
  rcases h5 : d.repoRegister
      { Email := req.Email, Password := hashed, UUID := id, Refresh := r } s4 with ⟨_ | e, s5⟩
  swap
  · left
    exact ⟨r, a, e, by simp [Register, h1, h2, h3, h4, h5, Errorf],
      by simp [Register, h1, h2, h3, h4, h5]⟩
  right
  rcases h6 : d.randSource s5 with ⟨raw, s6⟩
  obtain ⟨extra, hx, hall⟩ := registerTail_trace d (Itoa ((raw % 9001 : Nat) + 1000)) req.Email
    { UUID := id, RefreshToken := r, AccessToken := a } sched
    { st := s6,
      trace := [ .logDebug "uc layer success ✔", .HashPassword req.Password (.ok hashed),
            .uuidNew id, .NewToken id .REFRESH (.ok r), .NewToken id .ACCESS (.ok a),
            .repoRegister { Email := req.Email, Password := hashed, UUID := id, Refresh := r }
              none,
            .randIntn 9001 (raw % 9001) ] }
  refine ⟨r, a, raw % 9001, extra, ?_, hall⟩
  rw [← hx]
  simp [Register, h1, h2, h3, h4, h5, h6]

/-- C3: if the repository's `Register` call fails with `e`, `Register` returns the
empty result (UUID, RefreshToken and AccessToken all empty) and an error wrapping
`e`, and made no call to the notifier's `SendCode` nor to `repo.EmailAddCode`,
whatever the schedule. -/
theorem Register_repo_failure_aborts (d : Deps σ) (req : RegReq) (sched : List Thread)
    (s : σ) (r : RegReq) (e : GoError)
    (h : Call.repoRegister r (some e) ∈ (Register d req sched (World.init s)).2.trace) :
    (Register d req sched (World.init s)).1
      = ({ UUID := "", RefreshToken := "", AccessToken := "" },
         some (.wrap "repo error: " e)) ∧
    (GoError.wrap "repo error: " e).Unwrap = some e ∧
    ∀ c ∈ (Register d req sched (World.init s)).2.trace,
      c.sentCode = none ∧ c.addedCode = none := by
  rcases Register_cases d req sched s with
    ⟨e', _, hr, ht⟩ | ⟨hashed, id, _, ⟨e', hr, ht⟩ | ⟨r', e', hr, ht⟩ |
      ⟨r', a', e', hr, ht⟩ | ⟨r', a', k, extra, ht, hall⟩⟩
  · rw [ht] at h
    simp at h
  · rw [ht] at h
    simp at h
  · rw [ht] at h
    simp at h
  · rw [ht] at h
    rw [hr, ht]
    simp at h
    simp [h.2, RegRes.zero, GoError.Unwrap, Call.sentCode, Call.addedCode]
  · rw [ht] at h
    simp at h
    have := hall _ h
    simp [Call.isTail] at this

/-- Witness of C3: the repository refuses a duplicate email. -/
theorem Register_repo_failure_aborts_witness :
    (Register duplicateEmailDeps sampleRegReq [.dispatch, .main] (World.init 0)).1
      = ({ UUID := "", RefreshToken := "", AccessToken := "" },
         some (.wrap "repo error: " (.base "duplicate email"))) ∧
    (GoError.wrap "repo error: " (.base "duplicate email")).Unwrap
      = some (.base "duplicate email") ∧
    ∀ c ∈ (Register duplicateEmailDeps sampleRegReq [.dispatch, .main] (World.init 0)).2.trace,
      c.sentCode = none ∧ c.addedCode = none :=
  Register_repo_failure_aborts duplicateEmailDeps sampleRegReq [.dispatch, .main] 0
    { Email := "a@x.com", Password := "hash:pw1", UUID := "u1", Refresh := "R-u1" }
    (.base "duplicate email")
    (by simp [Register, duplicateEmailDeps, sampleDeps, sampleRegReq])

/-- C5: in `Register` and in `PasswordRecovery`, when `HashPassword` answers
`hashed` for the caller's password, every call to the repository that has a
password field carries `hashed` in it, and every call to the repository that has
an email carries the caller's email; when `HashPassword` fails, the operation
returns an error and made no call to the repository. -/
theorem repository_receives_hashed_password (d : Deps σ) (s : σ) :
    (∀ (req : RegReq) (sched : List Thread),
      (∀ hashed : String, (d.HashPassword req.Password s).1 = .ok hashed →
        ∀ c ∈ (Register d req sched (World.init s)).2.trace,
          (∀ p, c.repoPassword = some p → p = hashed) ∧
          (∀ m, c.repoEmail = some m → m = req.Email)) ∧
      (∀ e : GoError, (d.HashPassword req.Password s).1 = .error e →
        (Register d req sched (World.init s)).1.2 ≠ none ∧
        ∀ c ∈ (Register d req sched (World.init s)).2.trace, c.isRepo = false)) ∧
    (∀ cr : Credentials,
      (∀ hashed : String, (d.HashPassword cr.Password s).1 = .ok hashed →
        ∀ c ∈ (PasswordRecovery d cr (World.init s)).2.trace,
          (∀ p, c.repoPassword = some p → p = hashed) ∧
          (∀ m, c.repoEmail = some m → m = cr.Email)) ∧
      (∀ e : GoError, (d.HashPassword cr.Password s).1 = .error e →
        (PasswordRecovery d cr (World.init s)).1 ≠ none ∧
        ∀ c ∈ (PasswordRecovery d cr (World.init s)).2.trace, c.isRepo = false)) := by
  constructor
  · intro req sched
    rcases Register_cases d req sched s with
      ⟨e', hh, hr, ht⟩ | ⟨hashed', id, hh, ⟨e', hr, ht⟩ | ⟨r', e', hr, ht⟩ |
        ⟨r', a', e', hr, ht⟩ | ⟨r', a', k, extra, ht, hall⟩⟩
    · constructor
      · intro hashed h
        simp [hh] at h
      · intro e _
        rw [hr, ht]
        simp [Call.isRepo]
    · constructor
      · intro hashed h
        rw [hh] at h
        obtain rfl : hashed' = hashed := by simpa using h
        rw [ht]
        simp [Call.repoPassword, Call.repoEmail]
      · intro e h
        simp [hh] at h
    · constructor
      · intro hashed h
        rw [hh] at h
        obtain rfl : hashed' = hashed := by simpa using h
        rw [ht]
        simp [Call.repoPassword, Call.repoEmail]
      · intro e h
        simp [hh] at h
    · constructor
      · intro hashed h
        rw [hh] at h
        obtain rfl : hashed' = hashed := by simpa using h
        rw [ht]
        simp [Call.repoPassword, Call.repoEmail]
      · intro e h
        simp [hh] at h
    · constructor
      · intro hashed h
        rw [hh] at h
        obtain rfl : hashed' = hashed := by simpa using h
        rw [ht]
        rw [List.forall_mem_append]
        refine ⟨by simp [Call.repoPassword, Call.repoEmail], fun c hc => ?_⟩
        have := hall c hc
        cases c <;> simp_all [Call.isTail, Call.repoPassword, Call.repoEmail]
      · intro e h
        simp [hh] at h
  · intro cr
    rcases h1 : d.HashPassword cr.Password s with ⟨e | hashed', s1⟩
    · constructor
      · intro hashed h
        simp at h
      · intro e' _
        simp [PasswordRecovery, h1, Call.isRepo]
    · rcases h2 : d.repoPasswordRecovery { Email := cr.Email, Password := hashed' } s1
        with ⟨_ | e, s2⟩
      all_goals
        constructor
        · intro hashed h
          obtain rfl : hashed' = hashed := by simpa using h
          simp [PasswordRecovery, h1, h2, Call.repoPassword, Call.repoEmail]
        · intro e' h
          simp at h

/-- Witness of C5: a working and a failing hasher, for both operations. -/
theorem repository_receives_hashed_password_witness :
    (∀ c ∈ (Register (sampleDeps 234) sampleRegReq [.dispatch, .main] (World.init 0)).2.trace,
      (∀ p, c.repoPassword = some p → p = "hash:pw1") ∧
      (∀ m, c.repoEmail = some m → m = "a@x.com")) ∧
    ((Register hashFailsDeps sampleRegReq [] (World.init 0)).1.2 ≠ none ∧
      ∀ c ∈ (Register hashFailsDeps sampleRegReq [] (World.init 0)).2.trace,
        c.isRepo = false) ∧
    (∀ c ∈ (PasswordRecovery (sampleDeps 0) { Email := "a@x.com", Password := "pw1" }
        (World.init 0)).2.trace,
      (∀ p, c.repoPassword = some p → p = "hash:pw1") ∧
      (∀ m, c.repoEmail = some m → m = "a@x.com")) ∧
    ((PasswordRecovery hashFailsDeps { Email := "a@x.com", Password := "pw1" }
        (World.init 0)).1 ≠ none ∧
      ∀ c ∈ (PasswordRecovery hashFailsDeps { Email := "a@x.com", Password := "pw1" }
          (World.init 0)).2.trace,
        c.isRepo = false) :=
  ⟨((repository_receives_hashed_password (sampleDeps 234) 0).1 sampleRegReq
      [.dispatch, .main]).1 "hash:pw1" rfl,
   ((repository_receives_hashed_password hashFailsDeps 0).1 sampleRegReq []).2
      (.base "hash failed") rfl,
   ((repository_receives_hashed_password (sampleDeps 0) 0).2
      { Email := "a@x.com", Password := "pw1" }).1 "hash:pw1" rfl,
   ((repository_receives_hashed_password hashFailsDeps 0).2
      { Email := "a@x.com", Password := "pw1" }).2 (.base "hash failed") rfl⟩

/-- C10: in every execution of `Register`, whatever the schedule, and of
`EmailSendCode`, there is one code, the decimal text of the drawn value plus
1000, such that every call to `SendCode` and every call to `repo.EmailAddCode`
carries that code and the caller's email. -/
theorem emailed_code_is_recorded_code (d : Deps σ) (s : σ) :
    (∀ (req : RegReq) (sched : List Thread), ∃ code : String,
      ∀ c ∈ (Register d req sched (World.init s)).2.trace,
        (∀ k, c.drawn = some k → code = Itoa (k + 1000)) ∧
        (∀ p, c.sentCode = some p → p = (code, req.Email)) ∧
        (∀ p, c.addedCode = some p → p = (code, req.Email))) ∧
    (∀ email : String, ∃ code : String,
      ∀ c ∈ (EmailSendCode d email (World.init s)).2.trace,
        (∀ k, c.drawn = some k → code = Itoa (k + 1000)) ∧
        (∀ p, c.sentCode = some p → p = (code, email)) ∧
        (∀ p, c.addedCode = some p → p = (code, email))) := by
  constructor
  · intro req sched
    rcases Register_cases d req sched s with
      ⟨e', hh, hr, ht⟩ | ⟨hashed', id, hh, ⟨e', hr, ht⟩ | ⟨r', e', hr, ht⟩ |
        ⟨r', a', e', hr, ht⟩ | ⟨r', a', k, extra, ht, hall⟩⟩
    · refine ⟨"", ?_⟩
      rw [ht]
      simp [Call.drawn, Call.sentCode, Call.addedCode]
    · refine ⟨"", ?_⟩
      rw [ht]
      simp [Call.drawn, Call.sentCode, Call.addedCode]
    · refine ⟨"", ?_⟩
      rw [ht]
      simp [Call.drawn, Call.sentCode, Call.addedCode]
    · refine ⟨"", ?_⟩
      rw [ht]
      simp [Call.drawn, Call.sentCode, Call.addedCode]
    · refine ⟨Itoa (k + 1000), ?_⟩
      rw [ht, List.forall_mem_append]
      refine ⟨by simp [Call.drawn, Call.sentCode, Call.addedCode], fun c hc => ?_⟩
      have := hall c hc
      cases c <;> simp_all [Call.isTail, Call.drawn, Call.sentCode, Call.addedCode]
  · intro email
    rcases h0 : d.randSource s with ⟨raw, s0⟩
    refine ⟨Itoa ((raw : Int) % 9009 + 1000), ?_⟩
    rcases h1 : d.smtpSendCode (Itoa ((raw : Int) % 9009 + 1000)) email s0 with ⟨_ | e', s1⟩
    · rcases h2 : d.repoEmailAddCode (Itoa ((raw : Int) % 9009 + 1000)) email s1
        with ⟨_ | e3, s2⟩ <;>
      simp [EmailSendCode, h0, h1, h2, Call.drawn, Call.sentCode, Call.addedCode]
    · simp [EmailSendCode, h0, h1, Call.drawn, Call.sentCode, Call.addedCode]

/-- Witness of C10 on the sample collaborators: the code is `1234`. -/
theorem emailed_code_is_recorded_code_witness :
    List.filterMap Call.sentCode
        (Register (sampleDeps 234) sampleRegReq [.dispatch, .main] (World.init 0)).2.trace
      = [("1234", "a@x.com")] ∧
    List.filterMap Call.addedCode
        (Register (sampleDeps 234) sampleRegReq [.dispatch, .main] (World.init 0)).2.trace
      = [("1234", "a@x.com")] ∧
    ∃ code : String,
      ∀ c ∈ (Register (sampleDeps 234) sampleRegReq [.dispatch, .main] (World.init 0)).2.trace,
        (∀ k, c.drawn = some k → code = Itoa (k + 1000)) ∧
        (∀ p, c.sentCode = some p → p = (code, "a@x.com")) ∧
        (∀ p, c.addedCode = some p → p = (code, "a@x.com")) :=
  ⟨by decide, by decide,
   (emailed_code_is_recorded_code (sampleDeps 234) 0).1 sampleRegReq [.dispatch, .main]⟩

/-! ## Error propagation -/

/-- C9, evaluated where it fails. In `EmailSendCode` the repository's
`EmailAddCode` fails with `db down` and the operation returns it under the
context `"repo errpr: "`, not `"repo error: "`. In `PasswordRecovery` the hasher
fails with `hash failed`, no call to the repository is made, and the operation
returns it under the context `"repo error: "`. In `Register`, when the goroutine
assigns the notifier's nil to `err` after the body has assigned the repository's
error, the failure of `repo.EmailAddCode` is returned as no error at all, or, when
the body has already tested `err`, as an error that wraps nothing. The sibling
paths do as stated: a failing `repo.Register` and a failing
`repo.PasswordRecovery` come back under `"repo error: "`. -/
theorem collaborator_failure_context_slips :
    ((EmailSendCode (addCodeFailsDeps 234) "a@x.com" (World.init 0)).2.trace
        = [ .logDebug "uc layer success ✔", .randIntn 9009 234,
            .smtpSendCode "1234" "a@x.com" none,
            .repoEmailAddCode "1234" "a@x.com" (some (.base "db down")) ] ∧
      (EmailSendCode (addCodeFailsDeps 234) "a@x.com" (World.init 0)).1
        = some (.wrap "repo errpr: " (.base "db down")) ∧
      (GoError.wrap "repo errpr: " (.base "db down")).Error = "repo errpr: db down") ∧
    ((PasswordRecovery hashFailsDeps { Email := "a@x.com", Password := "pw2" }
          (World.init 0)).2.trace
        = [ .logDebug "uc layer success ✔",
            .HashPassword "pw2" (.error (.base "hash failed")) ] ∧
      (PasswordRecovery hashFailsDeps { Email := "a@x.com", Password := "pw2" }
          (World.init 0)).1
        = some (.wrap "repo error: " (.base "hash failed"))) ∧
    (List.filterMap Call.addedCode
        (Register (addCodeFailsDeps 234) sampleRegReq [.main, .main, .dispatch, .dispatch]
          (World.init 0)).2.trace = [("1234", "a@x.com")] ∧
      (Register (addCodeFailsDeps 234) sampleRegReq [.main, .main, .dispatch, .dispatch]
          (World.init 0)).1.2 = none ∧
      (Register (addCodeFailsDeps 234) sampleRegReq
          [.main, .main, .main, .dispatch, .dispatch] (World.init 0)).1.2
        = some (.base "repo error: %!w(<nil>)") ∧
      (GoError.base "repo error: %!w(<nil>)").Unwrap = none) ∧
    ((Register duplicateEmailDeps sampleRegReq [] (World.init 0)).1.2
        = some (.wrap "repo error: " (.base "duplicate email")) ∧
      (PasswordRecovery recoveryFailsDeps { Email := "a@x.com", Password := "pw2" }
          (World.init 0)).1
        = some (.wrap "repo error: " (.base "db down"))) :=
  ⟨⟨rfl, rfl, rfl⟩, ⟨rfl, rfl⟩, ⟨rfl, rfl, rfl, rfl⟩, ⟨rfl, rfl⟩⟩

/-! ## The detached dispatch and the shared variable -/

/-- C4, evaluated where it fails. The schedule lets the body of `Register` call
`repo.EmailAddCode` and assign its answer to `err`, then lets the goroutine call
`SendCode` and assign its answer to `err`, then lets the body test `err`.
With a failing notifier and a working repository, `Register` returns the empty
result and the notifier's error under `"repo error: "`, although every call to
the repository answered nil; with a working notifier it succeeds. With a working
notifier and a repository failing to record the code, `Register` succeeds,
although `repo.EmailAddCode` answered an error. -/
theorem Register_dispatch_overwrites_err :
    (Register (smtpDownDeps 234) sampleRegReq [.main, .main, .dispatch, .dispatch]
        (World.init 0)) =
      ((RegRes.zero, some (.wrap "repo error: " (.base "smtp down"))),
       { st := 8,
         trace :=
          [ .logDebug "uc layer success ✔", .HashPassword "pw1" (.ok "hash:pw1"),
            .uuidNew "u1", .NewToken "u1" .REFRESH (.ok "R-u1"),
            .NewToken "u1" .ACCESS (.ok "A-u1"),
            .repoRegister { Email := "a@x.com", Password := "hash:pw1", UUID := "u1",
                            Refresh := "R-u1" } none,
            .randIntn 9001 234,
            .repoEmailAddCode "1234" "a@x.com" none,
            .smtpSendCode "1234" "a@x.com" (some (.base "smtp down")),
            .Printf "smtp error: smtp down\n" ] }) ∧
    (Register (sampleDeps 234) sampleRegReq [.main, .main, .dispatch, .dispatch]
        (World.init 0)).1 =
      ({ UUID := "u1", RefreshToken := "R-u1", AccessToken := "A-u1" }, none) ∧
    (Register (addCodeFailsDeps 234) sampleRegReq [.main, .main, .dispatch, .dispatch]
        (World.init 0)) =
      (({ UUID := "u1", RefreshToken := "R-u1", AccessToken := "A-u1" }, none),
       { st := 8,
         trace :=
          [ .logDebug "uc layer success ✔", .HashPassword "pw1" (.ok "hash:pw1"),
            .uuidNew "u1", .NewToken "u1" .REFRESH (.ok "R-u1"),
            .NewToken "u1" .ACCESS (.ok "A-u1"),
            .repoRegister { Email := "a@x.com", Password := "hash:pw1", UUID := "u1",
                            Refresh := "R-u1" } none,
            .randIntn 9001 234,
            .repoEmailAddCode "1234" "a@x.com" (some (.base "db down")),
            .smtpSendCode "1234" "a@x.com" none ] }) :=
  ⟨rfl, rfl, rfl⟩

/-! ## The verification code -/

/-- C1, evaluated where it fails. In `Register`, `rand.Intn(9001)` may answer 9000,
and the code sent and recorded is then `10000`, of five characters; in
`EmailSendCode`, `rand.Intn(9009)` may answer 9008, and the code is then `10008`. -/
theorem verification_code_of_five_digits :
    List.filterMap Call.drawn
        (Register (sampleDeps 9000) sampleRegReq [] (World.init 0)).2.trace = [9000] ∧
    List.filterMap Call.addedCode
        (Register (sampleDeps 9000) sampleRegReq [] (World.init 0)).2.trace
      = [("10000", "a@x.com")] ∧
    List.filterMap Call.sentCode
        (Register (sampleDeps 9000) sampleRegReq [] (World.init 0)).2.trace
      = [("10000", "a@x.com")] ∧
    (Itoa (9000 + 1000)).length = 5 ∧
    List.filterMap Call.drawn
        (EmailSendCode (sampleDeps 9008) "a@x.com" (World.init 0)).2.trace = [9008] ∧
    List.filterMap Call.addedCode
        (EmailSendCode (sampleDeps 9008) "a@x.com" (World.init 0)).2.trace
      = [("10008", "a@x.com")] ∧
    List.filterMap Call.sentCode
        (EmailSendCode (sampleDeps 9008) "a@x.com" (World.init 0)).2.trace
      = [("10008", "a@x.com")] ∧
    (Itoa (9008 + 1000)).length = 5 := by
  decide

end Service
